import Mathlib

/-!
Verification of the failure-resume tool in `src/resumestate.py`.

The development shallowly embeds the four functions the claims are about:

* `parse_failure_history` (lines 33-78): walks a reverse-ordered execution
  history to find the step at which an execution failed;
* `get_state_machine_arn_from_execution_arn` (lines 27-30): positional ARN
  rewrite;
* `attach_go_to_state` (lines 81-113): the pure definition-mutation core of
  the resume-graph builder (lines 94-103);
* `start_new_state_machine_execution` (lines 115-122): the execution trigger.

External service calls (boto3) are modelled as explicit data: the paginated
history is a `List (List Event)` (each inner list one page of
`paginate_execution`, newest event first), and the `start_execution` client
is an oracle function from the issued request to a result.  The `while` loop
of `parse_failure_history` need not terminate in Python, so it is embedded
with explicit fuel; running out of fuel is the distinct outcome
`LoopOut.noFuel`, never confused with any behaviour the Python code has.
Python semantics is modelled faithfully: negative list indexing, `str.split`,
dict-key errors, and the Python-3 behaviour of `int(filter(...))` on line 59
(a `TypeError`, since `filter` returns an iterator object).
-/

/-- The `stateEnteredEventDetails` dictionary of a history event
(keys `name` and `input`). -/
structure StateEnteredDetails where
  name : String
  input : String
  deriving DecidableEq

/-- The `executionFailedEventDetails` dictionary of a history event
(keys `error` and `cause`). -/
structure ExecutionFailedDetails where
  error : String
  cause : String
  deriving DecidableEq

/-- One record of the reverse-ordered execution history.  The two detail
dictionaries are `Option`s: `none` models the key being absent from the
event dictionary, in which case the Python subscript raises `KeyError`. -/
structure Event where
  id : Nat
  previousEventId : Nat
  type : String
  executionFailedEventDetails : Option ExecutionFailedDetails := none
  stateEnteredEventDetails : Option StateEnteredDetails := none
  deriving DecidableEq

/-- Python negative indexing `lst[-k]` as used on lines 60-61 and 66:
for `0 < k ≤ len` it is `lst[len - k]`, for `k = 0` it is `lst[0]`,
otherwise `IndexError`. -/
def pyNegIndex (l : List Event) (k : Nat) : Except String Event :=
  if k = 0 then
    match l with
    | [] => Except.error "IndexError: list index out of range"
    | e :: _ => Except.ok e
  else if k ≤ l.length then
    match l.get? (l.length - k) with
    | some e => Except.ok e
    | none => Except.error "IndexError: list index out of range"
  else Except.error "IndexError: list index out of range"

/-- Lines 67-68: `failed_at_parallel_state` is set to `True` when the
visited event is a `ParallelStateFailed`, and kept otherwise. -/
def updateFap (failed_at_parallel_state : Bool) (e : Event) : Bool :=
  if e.type = "ParallelStateFailed" then true else failed_at_parallel_state

/-- Outcome of the `while current_event_id != 0` loop (lines 64-78). -/
inductive LoopOut where
  | ret (name input : String)
  | fellThrough (failedAtParallel : Bool)
  | err (msg : String)
  | noFuel
  deriving DecidableEq

/-- The `while` loop of `parse_failure_history` (lines 64-78), with fuel.
`failed_at_parallel_state` is threaded in and handed back on normal loop
exit because the Python variable outlives the loop. -/
def whileWalk (failed_event : List Event) : Bool → Nat → Nat → LoopOut
  | _, _, 0 => LoopOut.noFuel
  | failed_at_parallel_state, current_event_id, fuel + 1 =>
    if current_event_id = 0 then LoopOut.fellThrough failed_at_parallel_state
    else
      match pyNegIndex failed_event current_event_id with
      | Except.error m => LoopOut.err m
      | Except.ok current_event =>
        let fap := updateFap failed_at_parallel_state current_event
        if current_event.type = "TaskStateEntered" ∧ fap = false then
          match current_event.stateEnteredEventDetails with
          | some d => LoopOut.ret d.name d.input
          | none => LoopOut.err "KeyError: stateEnteredEventDetails"
        else if current_event.type = "ParallelStateEntered" ∧ fap = true then
          match current_event.stateEnteredEventDetails with
          | some d => LoopOut.ret d.name d.input
          | none => LoopOut.err "KeyError: stateEnteredEventDetails"
        else
          whileWalk failed_event fap current_event.previousEventId fuel

/-- The sequence of events the backward walk visits: start at
`current_event_id`, index the page as line 66 does, follow
`previousEventId`, stop at id 0 (or at an indexing error, or when fuel runs
out).  This is the "backward walk" the claims speak about. -/
def chainEvents (failed_event : List Event) : Nat → Nat → List Event
  | _, 0 => []
  | current_event_id, fuel + 1 =>
    if current_event_id = 0 then []
    else
      match pyNegIndex failed_event current_event_id with
      | Except.error _ => []
      | Except.ok e => e :: chainEvents failed_event e.previousEventId fuel

/-- The decision the loop body (lines 67-76) makes along a list of visited
events: the first event that is a `TaskStateEntered` outside a failed
parallel region, or a `ParallelStateEntered` inside one. -/
def scanChain : Bool → List Event → Option Event
  | _, [] => none
  | failed_at_parallel_state, e :: rest =>
    let fap := updateFap failed_at_parallel_state e
    if e.type = "TaskStateEntered" ∧ fap = false then some e
    else if e.type = "ParallelStateEntered" ∧ fap = true then some e
    else scanChain fap rest

/-- The `TaskStateEntered` events of a visited sequence that are not
preceded (earlier in walk order) by any `ParallelStateFailed` event. -/
def qualifyingTasks : List Event → List Event
  | [] => []
  | e :: rest =>
    if e.type = "ParallelStateFailed" then []
    else if e.type = "TaskStateEntered" then e :: qualifyingTasks rest
    else qualifyingTasks rest

/-- Splitting a list of characters at every character satisfying `p`,
keeping empty segments (the semantics of Python `str.split(sep)` pieces). -/
def splitChars (p : Char → Bool) : List Char → List (List Char)
  | [] => [[]]
  | c :: cs =>
    let rest := splitChars p cs
    if p c then [] :: rest
    else
      match rest with
      | r :: rs => (c :: r) :: rs
      | [] => [[c]]

/-- Python `str.split()` with no argument: split on whitespace runs and
drop empty tokens (used on the `cause` text, line 59). -/
def pySplitWhitespace (s : String) : List String :=
  ((splitChars (fun c => c.isWhitespace) s.data).map (fun cs => String.mk cs)).filter
    (fun t => t != "")

/-- Python `str.split(sep)` for a single-character separator, keeping
empty pieces (used on the ARN, line 28). -/
def pySplitOn (sep : Char) (s : String) : List String :=
  (splitChars (fun c => c = sep) s.data).map (fun cs => String.mk cs)

/-- Python `sep.join(parts)` for the `:` separator (line 30). -/
def joinColon : List String → String
  | [] => ""
  | [s] => s
  | s :: rest => s ++ ":" ++ joinColon rest

/-- Lines 27-30: drop the last `:`-separated component of the execution ARN
and overwrite component 5 with `stateMachine`.  `sm_arn[5] = ...` raises
`IndexError` when fewer than six components remain. -/
def get_state_machine_arn_from_execution_arn (execution_arn : String) :
    Except String String :=
  let sm_arn := (pySplitOn ':' execution_arn).dropLast
  if 5 < sm_arn.length then
    Except.ok (joinColon (sm_arn.set 5 "stateMachine"))
  else Except.error "IndexError: list assignment index out of range"

/-- The overall result of `parse_failure_history` on a given history.
`noneReturned` is the Python function running off the end of the `for`
loop and implicitly returning `None`. -/
inductive LocResult where
  | ok (failed_state failed_input : String)
  | noneReturned
  | err (msg : String)
  | noFuel
  deriving DecidableEq

/-- The `for failed_event in failed_events` loop of `parse_failure_history`
(lines 43-78).  Each page is processed in turn; `failed_at_parallel_state`
persists across pages (it is initialised once, line 35).  The
`States.Runtime` branch (lines 58-62) evaluates
`int(filter(str.isdigit, str(cause.split()[13])))`: under Python 3 the
subscript raises `IndexError` when the cause has at most 13 tokens, and
otherwise `int` applied to the `filter` iterator object raises `TypeError`
unconditionally, so the branch can never return normally. -/
def processPages (fuel : Nat) : Bool → List (List Event) → LocResult
  | _, [] => LocResult.noneReturned
  | failed_at_parallel_state, failed_event :: rest =>
    match failed_event with
    | [] => LocResult.err "no failed events"
    | e0 :: _ =>
      match e0.executionFailedEventDetails with
      | none => LocResult.err "KeyError: executionFailedEventDetails"
      | some failed_event_details =>
        if failed_event_details.error = "States.Runtime" then
          if (pySplitWhitespace failed_event_details.cause).length ≤ 13 then
            LocResult.err "IndexError: list index out of range"
          else
            LocResult.err
              "TypeError: int() argument must be a string, a bytes-like object or a real number, not filter"
        else
          match whileWalk failed_event failed_at_parallel_state e0.id fuel with
          | LoopOut.ret n i => LocResult.ok n i
          | LoopOut.err m => LocResult.err m
          | LoopOut.noFuel => LocResult.noFuel
          | LoopOut.fellThrough fap => processPages fuel fap rest

/-- `parse_failure_history` (lines 33-78) on an already-fetched history:
`failed_events` is the list of pages that `paginate_execution` yields,
each page reverse-ordered (newest event first). -/
def parse_failure_history (failed_events : List (List Event)) (fuel : Nat) :
    LocResult :=
  processPages fuel false failed_events

/-- Well-formedness of one position of a reverse-ordered page: the event at
position `i` has id `length - i` (so negative indexing by id finds it) and
its `previousEventId` is strictly smaller than its id. -/
def wfEventAt (page : List Event) (i : Nat) : Bool :=
  match page.get? i with
  | none => true
  | some e => (e.id == page.length - i) && decide (e.previousEventId < e.id)

/-- Well-formedness of a reverse-ordered page, as the claims assume it. -/
def wfPage (page : List Event) : Bool :=
  (List.range page.length).all (fun i => wfEventAt page i)

/-- A JSON value, enough to embed Amazon States Language definitions. -/
inductive Json where
  | str (s : String)
  | bool (b : Bool)
  | num (n : Int)
  | arr (elems : List Json)
  | obj (fields : List (String × Json))

/-- Lookup in a JSON object / Python dict with string keys
(first matching key wins; Python dicts have unique keys). -/
def dictGet (d : List (String × Json)) (k : String) : Option Json :=
  match d.find? (fun p => p.1 == k) with
  | some p => some p.2
  | none => none

/-- Python dict assignment `d[k] = v`: overwrite in place when the key is
present (insertion order kept), append otherwise. -/
def dictInsert (d : List (String × Json)) (k : String) (v : Json) :
    List (String × Json) :=
  if d.any (fun p => p.1 == k) = true then
    d.map (fun p => if p.1 == k then (k, v) else p)
  else d ++ [(k, v)]

/-- A parsed state-machine definition: the `StartAt` string and the
ordered `States` dictionary (step name to opaque step JSON). -/
structure StateMachine where
  startAt : String
  states : List (String × Json)

/-- The redirect step built on lines 95-99: a Choice state whose single
choice sends `$.resuming == false` to the original start state, with the
failed state as the default. -/
def go_to_state (original_start_at failed_state_name : String) : Json :=
  Json.obj
    [("Type", Json.str "Choice"),
     ("Choices", Json.arr
        [Json.obj
          [("Variable", Json.str "$.resuming"),
           ("BooleanEquals", Json.bool false),
           ("Next", Json.str original_start_at)]]),
     ("Default", Json.str failed_state_name)]

/-- The pure definition-mutation core of `attach_go_to_state`
(lines 94-103): record the original `StartAt`, store the redirect step
under the key `GoToState`, and repoint `StartAt` at it.  Fetching and
re-registering the definition are external service calls and are not part
of the mutation. -/
def attach_go_to_state (failed_state_name : String)
    (state_machine : StateMachine) : StateMachine :=
  let original_start_at := state_machine.startAt
  { startAt := "GoToState",
    states := dictInsert state_machine.states "GoToState"
      (go_to_state original_start_at failed_state_name) }

/-- The `Next` target of the single choice of the `GoToState` step of a
definition, when that step has the synthesized shape. -/
def injected_next (sm : StateMachine) : Option String :=
  match dictGet sm.states "GoToState" with
  | some (Json.obj fields) =>
    match fields.find? (fun p => p.1 == "Choices") with
    | some (_, Json.arr [Json.obj cfields]) =>
      match cfields.find? (fun p => p.1 == "Next") with
      | some (_, Json.str s) => some s
      | _ => none
    | _ => none
  | _ => none

/-- The request `start_new_state_machine_execution` issues (lines 118-120). -/
structure StartExecutionCall where
  stateMachineArn : String
  input : String
  deriving DecidableEq

/-- Lines 115-122: call `start_execution` with the fixed input
`{"resuming": true}` and wrap any client failure.  The boto3 client is
modelled as an oracle from the issued request to its outcome. -/
def start_new_state_machine_execution
    (respond : StartExecutionCall → Except String Unit)
    (new_machine_arn : String) : Except String Unit :=
  match respond { stateMachineArn := new_machine_arn,
                  input := "\x7b\"resuming\": true\x7d" } with
  | Except.ok u => Except.ok u
  | Except.error e => Except.error ("Failed to start Execution: " ++ e)

/-! Concrete history pages and definitions used to instantiate the theorems
below on explicit inputs. -/

/-- A three-event reverse-ordered page: failure marker, one task entry,
execution start. -/
def evC1_fail : Event :=
  { id := 3, previousEventId := 2, type := "ExecutionFailed",
    executionFailedEventDetails :=
      some { error := "States.TaskFailed", cause := "task crashed" } }

/-- The single qualifying task-entry event of the page around `evC1_fail`. -/
def evC1_task : Event :=
  { id := 2, previousEventId := 1, type := "TaskStateEntered",
    stateEnteredEventDetails := some { name := "MyTask", input := "7" } }

/-- The execution-start event of the page around `evC1_fail`. -/
def evC1_start : Event :=
  { id := 1, previousEventId := 0, type := "ExecutionStarted" }

/-- Failure marker of a page whose failure happened inside a parallel
branch. -/
def evC3_fail : Event :=
  { id := 5, previousEventId := 4, type := "ExecutionFailed",
    executionFailedEventDetails :=
      some { error := "States.TaskFailed", cause := "branch crashed" } }

/-- The `ParallelStateFailed` event of the page around `evC3_fail`. -/
def evC3_psf : Event :=
  { id := 4, previousEventId := 3, type := "ParallelStateFailed" }

/-- The task entered inside the failed parallel branch. -/
def evC3_task : Event :=
  { id := 3, previousEventId := 2, type := "TaskStateEntered",
    stateEnteredEventDetails := some { name := "InnerTask", input := "1" } }

/-- The `ParallelStateEntered` event of the page around `evC3_fail`. -/
def evC3_pent : Event :=
  { id := 2, previousEventId := 1, type := "ParallelStateEntered",
    stateEnteredEventDetails := some { name := "MyParallel", input := "2" } }

/-- The execution-start event of the page around `evC3_fail`. -/
def evC3_start : Event :=
  { id := 1, previousEventId := 0, type := "ExecutionStarted" }

/-- Failure marker of a two-event page with no qualifying event at all. -/
def evC7a_fail : Event :=
  { id := 2, previousEventId := 1, type := "ExecutionFailed",
    executionFailedEventDetails :=
      some { error := "States.TaskFailed", cause := "boom" } }

/-- The execution-start event of the page around `evC7a_fail`. -/
def evC7a_start : Event :=
  { id := 1, previousEventId := 0, type := "ExecutionStarted" }

/-- Failure marker of a three-event page whose only entered state is a
Pass state, so the walk finds nothing. -/
def evC7b_fail : Event :=
  { id := 3, previousEventId := 2, type := "ExecutionFailed",
    executionFailedEventDetails :=
      some { error := "States.ALL", cause := "failed" } }

/-- A `PassStateEntered` event: visited by the walk but never a match. -/
def evC7b_pass : Event :=
  { id := 2, previousEventId := 1, type := "PassStateEntered",
    stateEnteredEventDetails := some { name := "P", input := "0" } }

/-- The execution-start event of the page around `evC7b_fail`. -/
def evC7b_start : Event :=
  { id := 1, previousEventId := 0, type := "ExecutionStarted" }

/-- A failure marker whose error tag is `States.Runtime` and whose cause
text has `42` as its 14th whitespace-delimited token. -/
def evC2_runtime : Event :=
  { id := 1, previousEventId := 0, type := "ExecutionFailed",
    executionFailedEventDetails :=
      some { error := "States.Runtime",
             cause := "a b c d e f g h i j k l m 42" } }

/-- A source definition whose `States` dictionary already holds the
reserved key `GoToState`. -/
def smC10 : StateMachine :=
  { startAt := "S",
    states := [("GoToState", Json.str "old"), ("X", Json.bool true)] }

/-! Helper lemmas about the dictionary model. -/

/-- Overwriting a present key: `find?` on the rewritten list yields the new
pair. -/
theorem find_map_overwrite (k : String) (v : Json) :
    ∀ (d : List (String × Json)), d.any (fun p => p.1 == k) = true →
      (d.map (fun p => if p.1 == k then (k, v) else p)).find? (fun p => p.1 == k) =
        some (k, v) := by
  intro d
  induction d with
  | nil => intro h; simp at h
  | cons p d ih =>
    intro h
    by_cases hp : (p.1 == k) = true
    · simp [List.find?, hp]
    · have hp' : (p.1 == k) = false := by simpa using hp
      have hd : d.any (fun p => p.1 == k) = true := by
        simpa [List.any_cons, hp'] using h
      simpa [List.find?, hp'] using ih hd

/-- Appending a fresh key: `find?` on the extended list yields the new
pair. -/
theorem find_append_new (k : String) (v : Json) :
    ∀ (d : List (String × Json)), d.any (fun p => p.1 == k) = false →
      (d ++ [(k, v)]).find? (fun p => p.1 == k) = some (k, v) := by
  intro d
  induction d with
  | nil => intro _; simp [List.find?]
  | cons p d ih =>
    intro h
    rw [List.any_cons] at h
    have h2 := Bool.or_eq_false_iff.mp h
    simpa [List.find?, h2.1] using ih h2.2

/-- After `d[k] = v`, looking up `k` yields `v` (Python dict assignment). -/
theorem dictGet_insert_self (d : List (String × Json)) (k : String) (v : Json) :
    dictGet (dictInsert d k v) k = some v := by
  by_cases h : d.any (fun p => p.1 == k) = true
  · rw [dictInsert, if_pos h, dictGet, find_map_overwrite k v d h]
  · have h' : d.any (fun p => p.1 == k) = false := Bool.eq_false_iff.mpr h
    rw [dictInsert, if_neg h, dictGet, find_append_new k v d h']

/-! Helper lemmas relating the fuelled loop to the visited-event chain. -/

/-- If the visited sequence holds exactly one qualifying task, the scan
stops at it. -/
theorem scanChain_of_qualifyingTasks :
    ∀ (l : List Event) (t : Event), qualifyingTasks l = [t] →
      scanChain false l = some t := by
  intro l
  induction l with
  | nil => intro t h; simp [qualifyingTasks] at h
  | cons e rest ih =>
    intro t h
    by_cases hpsf : e.type = "ParallelStateFailed"
    · simp [qualifyingTasks, hpsf] at h
    · by_cases htask : e.type = "TaskStateEntered"
      · simp [qualifyingTasks, hpsf, htask] at h
        obtain ⟨he, _⟩ := h
        subst he
        simp [scanChain, updateFap, hpsf, htask]
      · simp only [qualifyingTasks, if_neg hpsf, if_neg htask] at h
        simpa [scanChain, updateFap, hpsf, htask] using ih t h

/-- Once inside a failed parallel region, the scan stops at the first
`ParallelStateEntered` event. -/
theorem scanChain_parallel_after (pent : Event) (rest : List Event)
    (hpent : pent.type = "ParallelStateEntered") :
    ∀ (mid : List Event), (∀ e ∈ mid, e.type ≠ "ParallelStateEntered") →
      scanChain true (mid ++ pent :: rest) = some pent := by
  intro mid
  induction mid with
  | nil =>
    intro _
    simp [scanChain, updateFap, hpent]
  | cons e mid ih =>
    intro hmid
    have he : e.type ≠ "ParallelStateEntered" := hmid e (List.mem_cons_self e mid)
    have hup : updateFap true e = true := by
      simp [updateFap]
    simp only [List.cons_append, scanChain, hup]
    rw [if_neg, if_neg]
    · exact ih (fun x hx => hmid x (List.mem_cons_of_mem e hx))
    · intro hcon
      exact he hcon.1
    · intro hcon
      simp at hcon

/-- A visited sequence that reaches a `ParallelStateFailed` event and then a
`ParallelStateEntered` event, with no qualifying task before it, makes the
scan stop at the `ParallelStateEntered` event. -/
theorem scanChain_parallel (psf pent : Event) (rest : List Event)
    (hpsf : psf.type = "ParallelStateFailed")
    (hpent : pent.type = "ParallelStateEntered") :
    ∀ (pre mid : List Event),
      (∀ e ∈ pre, e.type ≠ "TaskStateEntered" ∧ e.type ≠ "ParallelStateFailed") →
      (∀ e ∈ mid, e.type ≠ "ParallelStateEntered") →
      scanChain false (pre ++ psf :: (mid ++ pent :: rest)) = some pent := by
  intro pre
  induction pre with
  | nil =>
    intro mid _ hmid
    simp only [List.nil_append, scanChain, updateFap, hpsf, if_pos rfl]
    rw [if_neg, if_neg]
    · exact scanChain_parallel_after pent rest hpent mid hmid
    · intro hcon
      simp [hpsf] at hcon
    · intro hcon
      simp [hpsf] at hcon
  | cons e pre ih =>
    intro mid hpre hmid
    have he := hpre e (List.mem_cons_self e pre)
    have hup : updateFap false e = false := by
      simp [updateFap, he.2]
    simp only [List.cons_append, scanChain, hup]
    rw [if_neg, if_neg]
    · exact ih mid (fun x hx => hpre x (List.mem_cons_of_mem e hx)) hmid
    · intro hcon
      simp at hcon
    · intro hcon
      exact he.1 hcon.1

/-- When the scan over the visited chain stops at an event carrying entry
details, the fuelled loop returns exactly those details. -/
theorem whileWalk_ret_of_scanChain (page : List Event) :
    ∀ (fuel : Nat) (fap : Bool) (cid : Nat) (t : Event) (d : StateEnteredDetails),
      scanChain fap (chainEvents page cid fuel) = some t →
      t.stateEnteredEventDetails = some d →
      whileWalk page fap cid fuel = LoopOut.ret d.name d.input := by
  intro fuel
  induction fuel with
  | zero =>
    intro fap cid t d hscan _
    simp [chainEvents, scanChain] at hscan
  | succ fuel ih =>
    intro fap cid t d hscan hdet
    by_cases hc : cid = 0
    · simp [chainEvents, hc, scanChain] at hscan
    · cases hpe : pyNegIndex page cid with
      | error m => simp [chainEvents, hc, hpe, scanChain] at hscan
      | ok e =>
        simp only [chainEvents, if_neg hc, hpe, scanChain] at hscan
        simp only [whileWalk, if_neg hc, hpe]
        by_cases h1 : e.type = "TaskStateEntered" ∧ updateFap fap e = false
        · rw [if_pos h1] at hscan ⊢
          have ht : e = t := by
            simpa using hscan
          subst ht
          rw [hdet]
        · rw [if_neg h1] at hscan ⊢
          by_cases h2 : e.type = "ParallelStateEntered" ∧ updateFap fap e = true
          · rw [if_pos h2] at hscan ⊢
            have ht : e = t := by
              simpa using hscan
            subst ht
            rw [hdet]
          · rw [if_neg h2] at hscan ⊢
            exact ih (updateFap fap e) e.previousEventId t d hscan hdet

/-- Unpacking page well-formedness at one position. -/
theorem wfPage_spec (page : List Event) (hwf : wfPage page = true) :
    ∀ (i : Nat) (e : Event), page.get? i = some e →
      e.id = page.length - i ∧ e.previousEventId < e.id := by
  intro i e hget
  have hi : i < page.length := by
    by_contra hge
    rw [List.get?_eq_none.mpr (Nat.le_of_not_lt hge)] at hget
    exact Option.noConfusion hget
  have hall := List.all_eq_true.mp hwf i (List.mem_range.mpr hi)
  simp only [wfEventAt, hget] at hall
  simp only [Bool.and_eq_true, beq_iff_eq, decide_eq_true_eq] at hall
  exact hall

/-- On a well-formed page, when the scan over the visited chain finds
nothing, the loop reaches id 0 and exits normally (given enough fuel). -/
theorem whileWalk_fellThrough_of_scanChain_none (page : List Event)
    (hwf : wfPage page = true) :
    ∀ (fuel : Nat) (fap : Bool) (cid : Nat), cid ≤ page.length → cid < fuel →
      scanChain fap (chainEvents page cid fuel) = none →
      ∃ b, whileWalk page fap cid fuel = LoopOut.fellThrough b := by
  intro fuel
  induction fuel with
  | zero =>
    intro fap cid _ hlt
    exact absurd hlt (Nat.not_lt_zero cid)
  | succ fuel ih =>
    intro fap cid hle hlt hscan
    by_cases hc : cid = 0
    · exact ⟨fap, by simp [whileWalk, hc]⟩
    · have hpos : 0 < cid := Nat.pos_of_ne_zero hc
      have hidx : page.length - cid < page.length := by omega
      obtain ⟨e, hget⟩ : ∃ e, page.get? (page.length - cid) = some e := by
        rw [List.get?_eq_get hidx]
        exact ⟨_, rfl⟩
      have hpe : pyNegIndex page cid = Except.ok e := by
        simp only [pyNegIndex, if_neg hc, if_pos hle, hget]
      obtain ⟨hid', hprev'⟩ := wfPage_spec page hwf _ e hget
      have hid : e.id = cid := by omega
      have hprev : e.previousEventId < cid := by omega
      simp only [chainEvents, if_neg hc, hpe, scanChain] at hscan
      simp only [whileWalk, if_neg hc, hpe]
      by_cases h1 : e.type = "TaskStateEntered" ∧ updateFap fap e = false
      · rw [if_pos h1] at hscan
        exact Option.noConfusion hscan
      · rw [if_neg h1] at hscan ⊢
        by_cases h2 : e.type = "ParallelStateEntered" ∧ updateFap fap e = true
        · rw [if_pos h2] at hscan
          exact Option.noConfusion hscan
        · rw [if_neg h2] at hscan ⊢
          exact ih (updateFap fap e) e.previousEventId (by omega) (by omega) hscan

/-- Processing a single-page history whose first event carries failure
details with a non-runtime error tag reduces to the outcome of the loop. -/
theorem parse_single_page (e0 : Event) (tail : List Event) (fuel : Nat)
    (dfail : ExecutionFailedDetails)
    (hef : e0.executionFailedEventDetails = some dfail)
    (herr : dfail.error ≠ "States.Runtime") :
    parse_failure_history [e0 :: tail] fuel =
      match whileWalk (e0 :: tail) false e0.id fuel with
      | LoopOut.ret n i => LocResult.ok n i
      | LoopOut.err m => LocResult.err m
      | LoopOut.noFuel => LocResult.noFuel
      | LoopOut.fellThrough _ => LocResult.noneReturned := by
  simp only [parse_failure_history, processPages, hef, if_neg herr]

/-- The `Next` of the injected redirect step is always the original
`StartAt` recorded before the mutation (line 94 and line 97). -/
theorem injected_next_attach (sm : StateMachine) (failed_state_name : String) :
    injected_next (attach_go_to_state failed_state_name sm) = some sm.startAt := by
  have hg := dictGet_insert_self sm.states "GoToState"
    (go_to_state sm.startAt failed_state_name)
  calc injected_next (attach_go_to_state failed_state_name sm)
      = (match dictGet (dictInsert sm.states "GoToState"
            (go_to_state sm.startAt failed_state_name)) "GoToState" with
         | some (Json.obj fields) =>
           match fields.find? (fun p => p.1 == "Choices") with
           | some (_, Json.arr [Json.obj cfields]) =>
             match cfields.find? (fun p => p.1 == "Next") with
             | some (_, Json.str s) => some s
             | _ => none
           | _ => none
         | _ => none) := rfl
    _ = some sm.startAt := by
          rw [hg]
          rfl

/-! The claims. -/

/-- Claim C1: for every non-empty, well-formed reverse-ordered history page
whose first event is the execution-failure marker with an error tag other
than `States.Runtime` (events positioned so that negative indexing by id
finds them, `previousEventId` strictly decreasing), if the backward walk
visits exactly one `TaskStateEntered` event not preceded in walk order by a
`ParallelStateFailed` event, then `parse_failure_history` returns exactly
the name and input of that event. -/
theorem claim_C1_locator_returns_unique_task (e0 : Event) (tail : List Event)
    (fuel : Nat) (dfail : ExecutionFailedDetails) (t : Event)
    (dt : StateEnteredDetails)
    (hwf : wfPage (e0 :: tail) = true)
    (hef : e0.executionFailedEventDetails = some dfail)
    (herr : dfail.error ≠ "States.Runtime")
    (hq : qualifyingTasks (chainEvents (e0 :: tail) e0.id fuel) = [t])
    (hdt : t.stateEnteredEventDetails = some dt) :
    parse_failure_history [e0 :: tail] fuel = LocResult.ok dt.name dt.input := by
  have hret := whileWalk_ret_of_scanChain (e0 :: tail) fuel false e0.id t dt
    (scanChain_of_qualifyingTasks _ t hq) hdt
  rw [parse_single_page e0 tail fuel dfail hef herr, hret]

/-- Claim C1, witness: a concrete three-event page on which the locator
returns the single qualifying task. -/
theorem claim_C1_locator_returns_unique_task_witness :
    parse_failure_history [[evC1_fail, evC1_task, evC1_start]] 10 =
      LocResult.ok "MyTask" "7" :=
  claim_C1_locator_returns_unique_task evC1_fail [evC1_task, evC1_start] 10
    { error := "States.TaskFailed", cause := "task crashed" } evC1_task
    { name := "MyTask", input := "7" }
    (by decide) (by decide) (by decide) (by decide) (by decide)

/-- Claim C2: on a history whose first event has the `States.Runtime` error
tag and a cause whose 14th whitespace-delimited token is `42`, the code
does not select any event: line 59 applies `int` to a `filter` iterator
object, which raises `TypeError` under Python 3, so the runtime-error
branch always fails. -/
theorem claim_C2_runtime_branch_raises_type_error :
    parse_failure_history [[evC2_runtime]] 5 =
      LocResult.err
        "TypeError: int() argument must be a string, a bytes-like object or a real number, not filter" := by
  decide

/-- Claim C3: for a well-formed page whose backward walk visits a
`ParallelStateFailed` event and then reaches a `ParallelStateEntered` event
before any task qualifies, `parse_failure_history` returns the parallel
step details, not those of any task inside the parallel region. -/
theorem claim_C3_locator_returns_parallel_step (e0 : Event) (tail : List Event)
    (fuel : Nat) (dfail : ExecutionFailedDetails)
    (pre mid post : List Event) (psf pent : Event) (dp : StateEnteredDetails)
    (hwf : wfPage (e0 :: tail) = true)
    (hef : e0.executionFailedEventDetails = some dfail)
    (herr : dfail.error ≠ "States.Runtime")
    (hchain : chainEvents (e0 :: tail) e0.id fuel = pre ++ psf :: (mid ++ pent :: post))
    (hpsf : psf.type = "ParallelStateFailed")
    (hpent : pent.type = "ParallelStateEntered")
    (hpre : ∀ e ∈ pre, e.type ≠ "TaskStateEntered" ∧ e.type ≠ "ParallelStateFailed")
    (hmid : ∀ e ∈ mid, e.type ≠ "ParallelStateEntered")
    (hdp : pent.stateEnteredEventDetails = some dp) :
    parse_failure_history [e0 :: tail] fuel = LocResult.ok dp.name dp.input := by
  have hscan : scanChain false (chainEvents (e0 :: tail) e0.id fuel) = some pent := by
    rw [hchain]
    exact scanChain_parallel psf pent post hpsf hpent pre mid hpre hmid
  have hret := whileWalk_ret_of_scanChain (e0 :: tail) fuel false e0.id pent dp hscan hdp
  rw [parse_single_page e0 tail fuel dfail hef herr, hret]

/-- Claim C3, witness: a concrete five-event page with a failed parallel
branch, on which the locator returns the parallel step, not the inner
task. -/
theorem claim_C3_locator_returns_parallel_step_witness :
    parse_failure_history [[evC3_fail, evC3_psf, evC3_task, evC3_pent, evC3_start]] 10 =
      LocResult.ok "MyParallel" "2" :=
  claim_C3_locator_returns_parallel_step evC3_fail
    [evC3_psf, evC3_task, evC3_pent, evC3_start] 10
    { error := "States.TaskFailed", cause := "branch crashed" }
    [evC3_fail] [evC3_task] [evC3_start] evC3_psf evC3_pent
    { name := "MyParallel", input := "2" }
    (by decide) (by decide) (by decide) (by decide) (by decide) (by decide)
    (by decide) (by decide) (by decide)

/-- Claim C4: the end-to-end mutation scenario: from the source definition
with `StartAt = A` and states `A`, `B`, failing at `B`, the builder yields
`StartAt = GoToState`, the documented Choice step under `GoToState`, and
leaves the `A` and `B` entries unchanged. -/
theorem claim_C4_attach_end_to_end (a b : Json) :
    (attach_go_to_state "B" { startAt := "A", states := [("A", a), ("B", b)] }).startAt =
      "GoToState" ∧
    dictGet (attach_go_to_state "B"
        { startAt := "A", states := [("A", a), ("B", b)] }).states "GoToState" =
      some (Json.obj
        [("Type", Json.str "Choice"),
         ("Choices", Json.arr
            [Json.obj
              [("Variable", Json.str "$.resuming"),
               ("BooleanEquals", Json.bool false),
               ("Next", Json.str "A")]]),
         ("Default", Json.str "B")]) ∧
    dictGet (attach_go_to_state "B"
        { startAt := "A", states := [("A", a), ("B", b)] }).states "A" = some a ∧
    dictGet (attach_go_to_state "B"
        { startAt := "A", states := [("A", a), ("B", b)] }).states "B" = some b :=
  ⟨rfl, rfl, rfl, rfl⟩

/-- Claim C5, counterexample: when the source definition already starts at
`GoToState`, the injected Choice `Next` equals the new `StartAt`, so the
claim as stated ("never equals the new StartAt") is false. -/
theorem claim_C5_counterexample_next_equals_new_start :
    injected_next (attach_go_to_state "B" { startAt := "GoToState", states := [] }) =
      some (attach_go_to_state "B" { startAt := "GoToState", states := [] }).startAt :=
  rfl

/-- Claim C5, amended: for every source definition and failed step name,
the injected Choice `Next` equals the original `StartAt` of the source
definition; and whenever the original `StartAt` is not itself `GoToState`,
it differs from the new `StartAt`. -/
theorem claim_C5_next_equals_original_start (sm : StateMachine)
    (failed_state_name : String) (h : sm.startAt ≠ "GoToState") :
    injected_next (attach_go_to_state failed_state_name sm) = some sm.startAt ∧
    injected_next (attach_go_to_state failed_state_name sm) ≠
      some (attach_go_to_state failed_state_name sm).startAt := by
  refine ⟨injected_next_attach sm failed_state_name, ?_⟩
  rw [injected_next_attach sm failed_state_name]
  intro hcon
  exact h (Option.some.injEq _ _ ▸ hcon)

/-- Claim C5, witness: the amended invariant at a concrete definition. -/
theorem claim_C5_next_equals_original_start_witness :
    injected_next (attach_go_to_state "B" { startAt := "A", states := [] }) =
      some "A" ∧
    injected_next (attach_go_to_state "B" { startAt := "A", states := [] }) ≠
      some (attach_go_to_state "B" { startAt := "A", states := [] }).startAt :=
  claim_C5_next_equals_original_start { startAt := "A", states := [] } "B"
    (by decide)

/-- Claim C6, counterexample: on a history yielding no pages at all,
`parse_failure_history` silently returns `None` instead of raising, so the
claim as stated is false for the zero-page case. -/
theorem claim_C6_counterexample_empty_history_returns_none :
    parse_failure_history ([] : List (List Event)) 3 = LocResult.noneReturned :=
  rfl

/-- Claim C6, amended: a history page with zero events makes the locator
raise (`no failed events`, the history-unavailable error), but a history
that yields no pages at all makes it return without a result. -/
theorem claim_C6_empty_page_errors_empty_history_returns_none
    (rest : List (List Event)) (fuel : Nat) :
    parse_failure_history ([] :: rest) fuel = LocResult.err "no failed events" ∧
    parse_failure_history ([] : List (List Event)) fuel = LocResult.noneReturned :=
  ⟨rfl, rfl⟩

/-- Claim C7, counterexample: on a concrete page with no qualifying event
the backward walk reaches id 0 and `parse_failure_history` returns `None`
rather than raising any error, so the claim as stated is false. -/
theorem claim_C7_counterexample_returns_none :
    parse_failure_history [[evC7a_fail, evC7a_start]] 10 =
      LocResult.noneReturned := by
  decide

/-- Claim C7, amended: on every well-formed single-page history whose
backward walk finds no qualifying event before id 0, the locator returns
no result (Python `None`) instead of raising a no-failing-step error. -/
theorem claim_C7_walk_exhausted_returns_none (e0 : Event) (tail : List Event)
    (fuel : Nat) (dfail : ExecutionFailedDetails)
    (hwf : wfPage (e0 :: tail) = true)
    (hef : e0.executionFailedEventDetails = some dfail)
    (herr : dfail.error ≠ "States.Runtime")
    (hfuel : (e0 :: tail).length < fuel)
    (hscan : scanChain false (chainEvents (e0 :: tail) e0.id fuel) = none) :
    parse_failure_history [e0 :: tail] fuel = LocResult.noneReturned := by
  have hid0 : e0.id = (e0 :: tail).length := by
    have h := wfPage_spec (e0 :: tail) hwf 0 e0 rfl
    simpa using h.1
  obtain ⟨b, hb⟩ := whileWalk_fellThrough_of_scanChain_none (e0 :: tail) hwf fuel
    false e0.id (Nat.le_of_eq hid0) (by omega) hscan
  rw [parse_single_page e0 tail fuel dfail hef herr, hb]

/-- Claim C7, witness: the amended behaviour at a concrete page whose only
entered state is a Pass state. -/
theorem claim_C7_walk_exhausted_returns_none_witness :
    parse_failure_history [[evC7b_fail, evC7b_pass, evC7b_start]] 10 =
      LocResult.noneReturned :=
  claim_C7_walk_exhausted_returns_none evC7b_fail [evC7b_pass, evC7b_start] 10
    { error := "States.ALL", cause := "failed" }
    (by decide) (by decide) (by decide) (by decide) (by decide)

/-- Claim C8: the state-machine ARN derived from the documented execution
ARN drops the final component and replaces component 5 with
`stateMachine`. -/
theorem claim_C8_state_machine_arn_derivation :
    get_state_machine_arn_from_execution_arn
      "arn:aws:states:us-east-1:123:execution:MyMachine:exec1" =
    Except.ok "arn:aws:states:us-east-1:123:stateMachine:MyMachine" := by
  rfl

/-- Claim C9: the execution trigger issues a request whose input is exactly
the JSON text for a true `resuming` flag (a client accepting only that
input succeeds), and when the client fails, the trigger fails with the
wrapping execution-start error instead of returning normally. -/
theorem claim_C9_start_execution_input_and_error (new_machine_arn : String)
    (respond : StartExecutionCall → Except String Unit) (cause : String)
    (h : ∀ c, respond c = Except.error cause) :
    start_new_state_machine_execution respond new_machine_arn =
      Except.error ("Failed to start Execution: " ++ cause) ∧
    start_new_state_machine_execution
      (fun c => if c.input = "\x7b\"resuming\": true\x7d" then Except.ok ()
                else Except.error "unexpected input")
      new_machine_arn = Except.ok () := by
  constructor
  · rw [start_new_state_machine_execution, h]
  · rfl

/-- Claim C9, witness: the contract at a concrete machine ARN and a client
that always fails with `boom`. -/
theorem claim_C9_start_execution_input_and_error_witness :
    start_new_state_machine_execution (fun _ => Except.error "boom") "m" =
      Except.error ("Failed to start Execution: " ++ "boom") ∧
    start_new_state_machine_execution
      (fun c => if c.input = "\x7b\"resuming\": true\x7d" then Except.ok ()
                else Except.error "unexpected input")
      "m" = Except.ok () :=
  claim_C9_start_execution_input_and_error "m" (fun _ => Except.error "boom")
    "boom" (fun _ => rfl)

/-- Claim C10: when the source `States` dictionary already holds the
reserved key `GoToState`, the builder silently overwrites that entry in
place with the synthesized redirect step and leaves every entry under any
other key verbatim. -/
theorem claim_C10_goToState_overwrite (sm : StateMachine)
    (failed_state_name : String)
    (h : sm.states.any (fun p => p.1 == "GoToState") = true) :
    (attach_go_to_state failed_state_name sm).states =
      sm.states.map (fun p =>
        if p.1 == "GoToState" then
          ("GoToState", go_to_state sm.startAt failed_state_name)
        else p) ∧
    dictGet (attach_go_to_state failed_state_name sm).states "GoToState" =
      some (go_to_state sm.startAt failed_state_name) := by
  constructor
  · show dictInsert sm.states "GoToState"
      (go_to_state sm.startAt failed_state_name) = _
    rw [dictInsert, if_pos h]
  · exact dictGet_insert_self sm.states "GoToState"
      (go_to_state sm.startAt failed_state_name)

/-- Claim C10, witness: the silent overwrite at a concrete definition that
already holds a `GoToState` entry. -/
theorem claim_C10_goToState_overwrite_witness :
    (attach_go_to_state "F" smC10).states =
      [("GoToState", go_to_state "S" "F"), ("X", Json.bool true)] ∧
    dictGet (attach_go_to_state "F" smC10).states "GoToState" =
      some (go_to_state "S" "F") :=
  claim_C10_goToState_overwrite smC10 "F" (by decide)
